import Mathlib

/-!
Shallow embedding of the zupass credential-verification and admission-control
core: the proof-job queue routes (`/pcds/prove`, `/pcds/status/:hash`) and the
Telegram admission / anonymous-channel service (`telegramService.ts`,
`insertTelegramConversation.ts`).

External collaborators (the grammy bot API, the @pcd proof packages, the
js-sha256 hash, postgres) are modelled as explicit parameters: bot API calls
become entries of an effect trace, the opaque deserializer becomes a sum type,
and the database becomes an explicit record of table rows.
-/

/-! ## Proof-job queue (routes/pcdRoutes, `initPCDRoutes`) -/

/-- A proof-generation request `{pcdType, args}`; `args` is opaque and kept as
an uninterpreted string. -/
structure ProveRequest where
  pcdType : String
  args : String
  deriving DecidableEq

/-- Status of a queued proof job (`StampPCDStatus`). -/
inductive StampPCDStatus where
  | QUEUED
  | PROVING
  | COMPLETE
  | ERROR
  deriving DecidableEq

/-- Response of the `/pcds/prove` route (`PendingStampPCD`). -/
structure PendingStampPCD where
  pcdType : String
  hash : String
  status : StampPCDStatus
  deriving DecidableEq

/-- The server proving context: the status map, the result map, the FIFO queue,
and a trace of the invocations of the external `prove()` capability (the
source calls `prove(proveRequest, _provingContext)`; the trace records that
this call was made). -/
structure ServerProvingContext where
  stampStatus : List (String × StampPCDStatus)
  stampResult : List (String × String)
  queue : List ProveRequest
  proveCalls : List ProveRequest
  deriving DecidableEq

/-- Lookup in an association list keyed by string (models `Map.get`). -/
def lookupKey {β : Type} : List (String × β) → String → Option β
  | [], _ => none
  | (k, v) :: rest, h => if k = h then some v else lookupKey rest h

/-- Update/insert in an association list keyed by string (models `Map.set`). -/
def setKey {β : Type} : List (String × β) → String → β → List (String × β)
  | [], h, st => [(h, st)]
  | (k, v) :: rest, h, st =>
    if k = h then (h, st) :: rest else (k, v) :: setKey rest h st

/-- The `POST /pcds/prove` handler. `hashRequest` is the deterministic content
hash from `@pcd/passport-interface`, kept abstract. If the hash already has a
status, nothing is mutated and the existing status is returned; otherwise the
request is pushed onto the queue and either computation starts at once (the
queue was empty before the push, so its length is now 1) with status PROVING,
or the job is marked QUEUED. -/
def pcdsProveRoute (hashRequest : ProveRequest → String)
    (ctx : ServerProvingContext) (req : ProveRequest) :
    ServerProvingContext × PendingStampPCD :=
  let hash := hashRequest req
  match lookupKey ctx.stampStatus hash with
  | some st => (ctx, ⟨req.pcdType, hash, st⟩)
  | none =>
    let queue' := ctx.queue ++ [req]
    if queue'.length = 1 then
      ({ ctx with
          stampStatus := setKey ctx.stampStatus hash .PROVING,
          queue := queue',
          proveCalls := ctx.proveCalls ++ [req] },
       ⟨req.pcdType, hash, .PROVING⟩)
    else
      ({ ctx with
          stampStatus := setKey ctx.stampStatus hash .QUEUED,
          queue := queue' },
       ⟨req.pcdType, hash, .QUEUED⟩)

/-- Response of the `GET /pcds/status/:hash` route: an HTTP code, the status
field of the JSON body (absent for an unknown hash, where the source
serializes an undefined status), and the proof field (only sent on COMPLETE).
-/
structure StatusRouteResponse where
  code : Nat
  status : Option StampPCDStatus
  proof : Option String
  deriving DecidableEq

/-- The `GET /pcds/status/:hash` handler: COMPLETE answers 200 with the stored
serialized PCD, ERROR answers 500 with only the status, anything else
(QUEUED, PROVING, or an unknown hash) answers 400 echoing the looked-up
status, which is absent for an unknown hash. -/
def pcdsStatusRoute (ctx : ServerProvingContext) (hash : String) :
    StatusRouteResponse :=
  match lookupKey ctx.stampStatus hash with
  | some .COMPLETE => ⟨200, some .COMPLETE, lookupKey ctx.stampResult hash⟩
  | some .ERROR => ⟨500, some .ERROR, none⟩
  | st => ⟨400, st, none⟩

/-! ## Telegram admission service data model (`telegramService.ts`,
`insertTelegramConversation.ts`) -/

/-- One entry of the hardcoded `ALLOWED_EVENT_IDS` list. -/
structure AllowedEvent where
  eventId : String
  name : String
  deriving DecidableEq

/-- The hardcoded event allow-list of `telegramService.ts`. -/
def ALLOWED_EVENT_IDS : List AllowedEvent :=
  [⟨"3fa6164c-4785-11ee-8178-763dbf30819c", "SRW Staging"⟩,
   ⟨"264b2536-479c-11ee-8153-de1f187f7393", "SRW Prod"⟩,
   ⟨"b03bca82-2d63-11ee-9929-0e084c48e15f", "ProgCrypto (Internal Test)"⟩,
   ⟨"ae23e4b4-2d63-11ee-9929-0e084c48e15f", "AW (Internal Test)"⟩]

/-- `eventIdIsAllowed`: throws when the eventId is JS-falsy (absent or the
empty string), otherwise reports membership in the hardcoded allow-list. -/
def eventIdIsAllowed (eventId : Option String) : Except String Bool :=
  match eventId with
  | none => .error "No Event Id found for verification"
  | some e =>
    if e = "" then .error "No Event Id found for verification"
    else .ok ((ALLOWED_EVENT_IDS.map (fun a => a.eventId)).contains e)

/-- The revealed fields of a ZK ticket claim used by the service
(`pcd.claim.partialTicket`). -/
structure PartialTicket where
  eventId : Option String
  deriving DecidableEq

/-- The claim of a `ZKEdDSAEventTicketPCD`: the revealed ticket fields, the
watermark (a bigint, absent when not revealed), and the EdDSA signer public
key pair. -/
structure ZKTicketClaim where
  partialTicket : PartialTicket
  watermark : Option Nat
  signer : String × String
  deriving DecidableEq

/-- An opaque deserialized `ZKEdDSAEventTicketPCD`. `validProof` records the
verdict of the external structural check
`ZKEdDSAEventTicketPCDPackage.verify`, which is opaque to this service. -/
structure ZKEdDSAEventTicketPCD where
  claim : ZKTicketClaim
  validProof : Bool
  deriving DecidableEq

/-- Input of `verifyZKEdDSAEventTicketPCD`: the external deserializer
`ZKEdDSAEventTicketPCDPackage.deserialize` either throws (malformed) or
produces a PCD. -/
inductive SerializedPCD where
  | malformed
  | ok (pcd : ZKEdDSAEventTicketPCD)
  deriving DecidableEq

/-- Deployment configuration resolved from the environment: `isLocalServer()`,
whether `PASSPORT_SERVER_URL` contains "staging", and the `TICKETING_PUBKEY`
derived once from `SERVER_EDDSA_PRIVATE_KEY` (taken as present; the source
throws at startup-time when it is missing). -/
structure VerifyConfig where
  isLocalServer : Bool
  isStaging : Bool
  ticketingPubkey : String × String
  deriving DecidableEq

/-- `verifyZKEdDSAEventTicketPCD`: deserialize (throwing a deserialization
error on malformed input), then branch on the environment to compute
`eventIdMatch` (unconditionally true on a local server; allow-list membership
otherwise, where a missing eventId throws) and `signerMatch` (componentwise
equality with the ticketing pubkey in every branch; the staging and production
branches of the source are line-for-line identical). Returns the PCD when the
structural check, the event match and the signer match all pass, `none`
otherwise. -/
def verifyZKEdDSAEventTicketPCD (cfg : VerifyConfig) (s : SerializedPCD) :
    Except String (Option ZKEdDSAEventTicketPCD) :=
  match s with
  | .malformed => .error "Deserialization error"
  | .ok pcd =>
    if cfg.isLocalServer then
      let eventIdMatch := true
      let signerMatch :=
        pcd.claim.signer.1 == cfg.ticketingPubkey.1 &&
        pcd.claim.signer.2 == cfg.ticketingPubkey.2
      .ok (if pcd.validProof && eventIdMatch && signerMatch then some pcd else none)
    else if cfg.isStaging then
      match eventIdIsAllowed pcd.claim.partialTicket.eventId with
      | .error e => .error e
      | .ok eventIdMatch =>
        let signerMatch :=
          pcd.claim.signer.1 == cfg.ticketingPubkey.1 &&
          pcd.claim.signer.2 == cfg.ticketingPubkey.2
        .ok (if pcd.validProof && eventIdMatch && signerMatch then some pcd else none)
    else
      match eventIdIsAllowed pcd.claim.partialTicket.eventId with
      | .error e => .error e
      | .ok eventIdMatch =>
        let signerMatch :=
          pcd.claim.signer.1 == cfg.ticketingPubkey.1 &&
          pcd.claim.signer.2 == cfg.ticketingPubkey.2
        .ok (if pcd.validProof && eventIdMatch && signerMatch then some pcd else none)

/-- A row of `telegram_bot_events`: the event id, the linked chat, and the
anonymous-topic column (never written by `insertTelegramEvent`, whose insert
list has only the first two columns). -/
structure TelegramEvent where
  ticket_event_id : String
  telegram_chat_id : Int
  anon_chat_id : Option Nat
  deriving DecidableEq

/-- A row of `telegram_bot_conversations`. -/
structure TelegramConversation where
  telegram_user_id : Nat
  telegram_chat_id : Int
  verified : Bool
  semaphore_id : Option String
  deriving DecidableEq

/-- The relevant persistent store: the two tables the claims touch. -/
structure DbState where
  telegram_bot_events : List TelegramEvent
  telegram_bot_conversations : List TelegramConversation
  deriving DecidableEq

/-- `insertTelegramVerification`: a plain `INSERT INTO
telegram_bot_conversations (telegram_user_id, telegram_chat_id, verified,
semaphore_id) VALUES ($1, $2, true, $3)` with no conflict clause — it appends
a row. `handleVerification` calls it without the `semaphoreId` argument, which
is therefore `undefined` (`none`). -/
def insertTelegramVerification (db : DbState) (telegramUserId : Nat)
    (telegramChatId : Int) (semaphoreId : Option String) : DbState :=
  { db with telegram_bot_conversations :=
      db.telegram_bot_conversations ++
        [⟨telegramUserId, telegramChatId, true, semaphoreId⟩] }

/-- The `ON CONFLICT (ticket_event_id) DO UPDATE SET telegram_chat_id = $2`
upsert of `insertTelegramEvent` on the row list: an existing row for the event
keeps every column other than the chat id (in particular `anon_chat_id`); a
fresh insert leaves `anon_chat_id` at its NULL default, since the insert list
names only the event and chat columns. -/
def upsertTelegramEventRows : List TelegramEvent → String → Int → List TelegramEvent
  | [], eid, cid => [⟨eid, cid, none⟩]
  | e :: rest, eid, cid =>
    if e.ticket_event_id = eid then ⟨eid, cid, e.anon_chat_id⟩ :: rest
    else e :: upsertTelegramEventRows rest eid cid

/-- `insertTelegramEvent (client, ticketEventId, telegramChatId)`: upsert into
`telegram_bot_events` keyed by `ticket_event_id`. The function has no
anonymous-topic parameter and its SQL never touches `anon_chat_id`. -/
def insertTelegramEvent (db : DbState) (ticketEventId : String)
    (telegramChatId : Int) : DbState :=
  { db with telegram_bot_events :=
      upsertTelegramEventRows db.telegram_bot_events ticketEventId telegramChatId }

/-- Modelled from the spec: `fetchTelegramEventByEventId` (its source file
`fetchTelegramEvent.ts` is not under src); per the spec, the EventChatRegistry
is "read by CredentialVerifier to resolve which chat a proof's event maps to",
so this returns the `telegram_bot_events` row whose `ticket_event_id`
matches, if any. -/
def fetchTelegramEventByEventId (db : DbState) (eventId : String) :
    Option TelegramEvent :=
  db.telegram_bot_events.find? (fun e => e.ticket_event_id == eventId)

/-- Modelled from the spec: `fetchTelegramEventsByChatId` (its source file
`fetchTelegramEvent.ts` is not under src); returns the `telegram_bot_events`
rows linked to the given chat. -/
def fetchTelegramEventsByChatId (db : DbState) (chatId : Int) :
    List TelegramEvent :=
  db.telegram_bot_events.filter (fun e => e.telegram_chat_id == chatId)

/-- Modelled from the spec: `fetchTelegramVerificationStatus` (its source file
`fetchTelegramConversation.ts` is not under src); per the spec, verification
records are "keyed by (externalUserId, chatId) with a boolean verified flag",
so this reports whether a verified row for the pair exists. -/
def fetchTelegramVerificationStatus (db : DbState) (telegramUserId : Nat)
    (telegramChatId : Int) : Bool :=
  db.telegram_bot_conversations.any (fun r =>
    r.telegram_user_id == telegramUserId &&
    r.telegram_chat_id == telegramChatId && r.verified)

/-- Modelled from the spec: `deleteTelegramVerification` (its source file
`deleteTelegramVerification.ts` is not under src); per the spec,
`handleMembershipGranted` "deletes the VerificationRecord for that pair
unconditionally (idempotent no-op if absent)", so this removes every row for
the pair. -/
def deleteTelegramVerification (db : DbState) (telegramUserId : Nat)
    (telegramChatId : Int) : DbState :=
  { db with telegram_bot_conversations :=
      db.telegram_bot_conversations.filter (fun r =>
        !(r.telegram_user_id == telegramUserId &&
          r.telegram_chat_id == telegramChatId)) }

/-! ## Bot environment, effects, and the service handlers -/

/-- The chat types distinguished by `chatIsGroup` and the command handlers. -/
inductive ChatType where
  | channel
  | group
  | supergroup
  | privateChat
  deriving DecidableEq

/-- The part of a `getChat` response the service reads. -/
structure ChatInfo where
  id : Int
  type : ChatType
  deriving DecidableEq

/-- The bot-API environment: `bot.api.getChat`, which either answers with the
chat or throws (`none`) when the chat is inaccessible. -/
structure BotEnv where
  getChat : Int → Option ChatInfo

/-- `chatIsGroup`: the chat must be a channel, group or supergroup. -/
def chatIsGroup (chat : ChatInfo) : Bool :=
  chat.type == .channel || chat.type == .group || chat.type == .supergroup

/-- Observable bot-API side effects of the handlers. -/
inductive TelegramEffect where
  | approvedJoinRequest (chatId : Int) (userId : Nat)
  | inviteLinkCreated (chatId : Int)
  | messageSent (userId : Nat) (text : String)
  | anonChannelMessage (groupId : Int) (anonChatId : Nat) (message : String)
  | reply (text : String)
  deriving DecidableEq

/-- The effects of `sendInviteLink(userId, chat)`: create an invite link for
the chat (with `creates_join_request: true`) and message the user with the
link button. -/
def sendInviteLinkEffects (userId : Nat) (chat : ChatInfo) :
    List TelegramEffect :=
  [.inviteLinkCreated chat.id,
   .messageSent userId
     "You have generated a ZK proof! Press this button to send your proof"]

/-- `handleVerification(serializedZKEdDSATicket, telegramUserId)` as a state
transformer: the verdict (the thrown message or unit), the resulting store,
and the bot-API effect trace. Checks, in source order: PCD verification,
watermark presence (a zero bigint is JS-falsy and counts as absent), watermark
equality with the Telegram user id (the source compares the decimal strings of
two nonnegative integers, which is their equality), eventId presence (an empty
string is JS-falsy), event registry lookup, chat lookup, chat type. Only then
it inserts the verification row and sends the invite link. -/
def handleVerification (cfg : VerifyConfig) (env : BotEnv) (db : DbState)
    (serializedZKEdDSATicket : SerializedPCD) (telegramUserId : Nat) :
    Except String Unit × DbState × List TelegramEffect :=
  match verifyZKEdDSAEventTicketPCD cfg serializedZKEdDSATicket with
  | .error e => (.error e, db, [])
  | .ok none =>
    (.error ("Could not verify PCD for " ++ toString telegramUserId), db, [])
  | .ok (some pcd) =>
    match pcd.claim.watermark with
    | none => (.error "Verification PCD did not contain watermark", db, [])
    | some watermark =>
      if watermark = 0 then
        (.error "Verification PCD did not contain watermark", db, [])
      else if telegramUserId ≠ watermark then
        (.error ("Telegram User id " ++ toString telegramUserId ++
          " does not match given watermark " ++ toString watermark), db, [])
      else
        match pcd.claim.partialTicket.eventId with
        | none =>
          (.error ("User " ++ toString telegramUserId ++
            " returned a ZK-ticket with no eventId."), db, [])
        | some eventId =>
          if eventId = "" then
            (.error ("User " ++ toString telegramUserId ++
              " returned a ZK-ticket with no eventId."), db, [])
          else
            match fetchTelegramEventByEventId db eventId with
            | none =>
              (.error ("ticket for event " ++ eventId ++
                " has no matching chat"), db, [])
            | some event =>
              match env.getChat event.telegram_chat_id with
              | none => (.error "chat is not accessible", db, [])
              | some chat =>
                if !chatIsGroup chat then
                  (.error ("chat is of incorrect type"), db, [])
                else
                  (.ok (),
                   insertTelegramVerification db telegramUserId
                     event.telegram_chat_id none,
                   sendInviteLinkEffects telegramUserId chat)

/-- Value of one hex digit; js-sha256 emits lowercase hex. -/
def hexDigitVal (c : Char) : Nat :=
  if '0' ≤ c ∧ c ≤ '9' then c.toNat - 48
  else if 'a' ≤ c ∧ c ≤ 'f' then c.toNat - 87
  else if 'A' ≤ c ∧ c ≤ 'F' then c.toNat - 55
  else 0

/-- Big-endian value of a list of hex digits, accumulator style. -/
def hexToNatAux : Nat → List Char → Nat
  | acc, [] => acc
  | acc, c :: rest => hexToNatAux (acc * 16 + hexDigitVal c) rest

/-- Big-endian value of a hex string, as `BigInt("0x" ++ s)` reads it. -/
def hexToNat (s : String) : Nat :=
  hexToNatAux 0 s.data

/-- `getMessageWatermark(message)`: hash the message with the external sha256
(kept abstract as `hash`), keep the first 16 hex characters of the digest
(`substring(0, 16)`), and read them as a big integer. -/
def getMessageWatermark (hash : String → String) (message : String) : Nat :=
  hexToNat ⟨(hash message).data.take 16⟩

/-- `handleSendAnonymousMessage(serializedZKEdDSATicket, message)`: verdict and
effect trace (this handler never writes the store). Checks, in source order:
PCD verification, eventId presence, watermark presence (zero is JS-falsy),
watermark equality with the message digest, event registry lookup,
`anon_chat_id` being non-null (a strict `== null` check, so zero passes),
chat lookup, chat type; then it forwards the message into the anonymous topic
with no sender metadata. -/
def handleSendAnonymousMessage (cfg : VerifyConfig) (env : BotEnv)
    (hash : String → String) (db : DbState)
    (serializedZKEdDSATicket : SerializedPCD) (message : String) :
    Except String Unit × List TelegramEffect :=
  match verifyZKEdDSAEventTicketPCD cfg serializedZKEdDSATicket with
  | .error e => (.error e, [])
  | .ok none => (.error "Could not verify PCD for anonymous message", [])
  | .ok (some pcd) =>
    match pcd.claim.partialTicket.eventId with
    | none => (.error "Anonymous message PCD did not contain eventId", [])
    | some eventId =>
      if eventId = "" then
        (.error "Anonymous message PCD did not contain eventId", [])
      else
        match pcd.claim.watermark with
        | none => (.error "Anonymous message PCD did not contain watermark", [])
        | some watermark =>
          if watermark = 0 then
            (.error "Anonymous message PCD did not contain watermark", [])
          else if getMessageWatermark hash message ≠ watermark then
            (.error ("Anonymous message string " ++ message ++
              " did not match watermark. got " ++ toString watermark ++
              " and expected " ++
              toString (getMessageWatermark hash message)), [])
          else
            match fetchTelegramEventByEventId db eventId with
            | none =>
              (.error ("anonymous message for event " ++ eventId ++
                " is not available"), [])
            | some event =>
              match event.anon_chat_id with
              | none => (.error "this group has no anon channel", [])
              | some anonChatId =>
                match env.getChat event.telegram_chat_id with
                | none => (.error "chat is not accessible", [])
                | some chat =>
                  if !chatIsGroup chat then
                    (.error "chat is of incorrect type", [])
                  else
                    (.ok (), [.anonChannelMessage chat.id anonChatId message])

/-- The `chat_join_request` handler: read the verification status for the
requesting user and chat; when verified, approve the join request, create an
invite link, and message the user twice; otherwise do nothing. The handler
performs no store write in either case. -/
def chatJoinRequestHandler (db : DbState) (chatId : Int) (userId : Nat) :
    DbState × List TelegramEffect :=
  if fetchTelegramVerificationStatus db userId chatId then
    (db, [.approvedJoinRequest chatId userId,
          .inviteLinkCreated chatId,
          .messageSent userId "You are approved.",
          .messageSent userId "Congrats!"])
  else
    (db, [])

/-- The `chat_member` handler: when the new member status is "member", delete
the verification for that user and chat so rejoining requires re-verifying. -/
def chatMemberHandler (db : DbState) (chatId : Int) (userId : Nat)
    (newStatus : String) : DbState :=
  if newStatus = "member" then deleteTelegramVerification db userId chatId
  else db

/-- Context of an `/incognito` command invocation. -/
structure IncognitoCtx where
  chatId : Int
  chatType : ChatType
  messageThreadId : Option Nat
  senderIsAdmin : Bool
  deriving DecidableEq

/-- The `/incognito` command handler. A JS-falsy `message_thread_id` (absent or
zero) aborts silently; a non-supergroup chat gets a warning reply but the
source does not return there and continues; a non-admin sender is refused.
Then: no linked event — refused; some linked event already has a non-null
`anon_chat_id` — refused as already linked, with no write; otherwise
`insertTelegramEvent` is called on the first linked event. The source passes
`messageThreadId` as an extra third argument, but `insertTelegramEvent` has no
topic parameter, so the thread id is dropped. -/
def incognitoHandler (db : DbState) (ctx : IncognitoCtx) :
    DbState × List TelegramEffect :=
  match ctx.messageThreadId with
  | none => (db, [])
  | some threadId =>
    if threadId = 0 then (db, [])
    else
      let warn : List TelegramEffect :=
        if ctx.chatType ≠ ChatType.supergroup then
          [.reply "This command only works in a group with Topics enabled."]
        else []
      if !ctx.senderIsAdmin then
        (db, warn ++
          [.reply "Must be an admin to convert a channel to Incognito mode."])
      else
        match fetchTelegramEventsByChatId db ctx.chatId with
        | [] =>
          (db, warn ++ [.reply
            "This group is not linked to an event. Please use /link to link this group to an event."])
        | e0 :: rest =>
          if ((e0 :: rest).filter (fun e => e.anon_chat_id.isSome)).length > 0 then
            (db, warn ++
              [.reply "This group has already linked an anonymous channel."])
          else
            (insertTelegramEvent db e0.ticket_event_id e0.telegram_chat_id,
             warn ++ [.reply
               "Successfully linked anonymous channel. DM me with /anonsend to anonymously send a message."])

/-! ## Derived check predicates and concrete instances -/

/-- The `signerMatch` local of `verifyZKEdDSAEventTicketPCD`, identical in all
three environment branches of the source. -/
def signerMatches (cfg : VerifyConfig) (pcd : ZKEdDSAEventTicketPCD) : Bool :=
  pcd.claim.signer.1 == cfg.ticketingPubkey.1 &&
  pcd.claim.signer.2 == cfg.ticketingPubkey.2

/-- The `eventIdMatch` local of `verifyZKEdDSAEventTicketPCD`:
unconditionally true on a local server, allow-list membership otherwise. -/
def eventIdMatches (cfg : VerifyConfig) (pcd : ZKEdDSAEventTicketPCD) : Bool :=
  if cfg.isLocalServer then true
  else
    match pcd.claim.partialTicket.eventId with
    | none => false
    | some e => (ALLOWED_EVENT_IDS.map (fun a => a.eventId)).contains e

/-- `n` successive `chat_join_request` deliveries for the same pair, each
applied to the store produced by the previous one. -/
def repeatJoin (db : DbState) (chatId : Int) (userId : Nat) : Nat → DbState
  | 0 => db
  | n + 1 => (chatJoinRequestHandler (repeatJoin db chatId userId n) chatId userId).1

/-- A concrete deterministic request hash for witnesses. -/
def wHashRequest : ProveRequest → String := fun r => r.pcdType ++ "/" ++ r.args

/-- An empty proving context. -/
def wCtx0 : ServerProvingContext := ⟨[], [], [], []⟩

/-- The request of Scenario A. -/
def wReq : ProveRequest := ⟨"X", "a1"⟩

/-- A proving context where `wReq` is already queued. -/
def wCtx1 : ServerProvingContext := ⟨[("X/a1", .QUEUED)], [], [wReq], []⟩

/-- A concrete ticketing public key. -/
def wPubkey : String × String := ("pk0", "pk1")

/-- A local-server deployment configuration. -/
def localCfg : VerifyConfig := ⟨true, false, wPubkey⟩

/-- A staging deployment configuration. -/
def stagingCfg : VerifyConfig := ⟨false, true, wPubkey⟩

/-- A bot environment where chat -100 exists and is a supergroup. -/
def wEnv : BotEnv := ⟨fun i => if i = (-100 : Int) then some ⟨-100, .supergroup⟩ else none⟩

/-- A store where event "evt-1" is linked to chat -100, with no anonymous
channel and no verifications. -/
def wDb : DbState := ⟨[⟨"evt-1", -100, none⟩], []⟩

/-- A store where event "evt-1" is linked to chat -100 with anonymous topic 99. -/
def wDbAnon : DbState := ⟨[⟨"evt-1", -100, some 99⟩], []⟩

/-- A store holding one verified record for user 5 in chat -100. -/
def wDbVerified : DbState := ⟨[], [⟨5, -100, true, none⟩]⟩

/-- An empty store. -/
def emptyDb : DbState := ⟨[], []⟩

/-- A valid PCD for event "evt-1" with watermark 5, signed by `wPubkey`. -/
def wPcdU5 : ZKEdDSAEventTicketPCD := ⟨⟨⟨some "evt-1"⟩, some 5, wPubkey⟩, true⟩

/-- A valid PCD for event "evt-1" with watermark 7, signed by `wPubkey`. -/
def wPcdW7 : ZKEdDSAEventTicketPCD := ⟨⟨⟨some "evt-1"⟩, some 7, wPubkey⟩, true⟩

/-- A valid PCD for event "evt-1" whose watermark is 255, matching the digest
of any message under `wHash`. -/
def wPcdAnon : ZKEdDSAEventTicketPCD := ⟨⟨⟨some "evt-1"⟩, some 255, wPubkey⟩, true⟩

/-- A constant stand-in for the sha256 hex digest, whose 16-character prefix
reads as 255. -/
def wHash : String → String := fun _ => "00000000000000ff"

/-- A PCD for an allow-listed event whose structural proof check fails but
whose signer and event are fine. -/
def pcdInvalidProof : ZKEdDSAEventTicketPCD :=
  ⟨⟨⟨some "3fa6164c-4785-11ee-8178-763dbf30819c"⟩, some 5, wPubkey⟩, false⟩

/-- A PCD for an allow-listed event whose structural proof check passes but
whose signer is wrong. -/
def pcdWrongSigner : ZKEdDSAEventTicketPCD :=
  ⟨⟨⟨some "3fa6164c-4785-11ee-8178-763dbf30819c"⟩, some 5, ("badkey0", "badkey1")⟩, true⟩

/-- A valid, correctly signed PCD for event "evt-999", which is neither in the
allow-list nor registered anywhere. -/
def pcdEvt999 : ZKEdDSAEventTicketPCD := ⟨⟨⟨some "evt-999"⟩, some 5, wPubkey⟩, true⟩

/-- An `/incognito` invocation by an admin in topic thread 7 of supergroup
-100. -/
def wIncognitoCtx : IncognitoCtx := ⟨-100, .supergroup, some 7, true⟩

/-- A store where chat -100 already has an anonymous topic (3) bound for its
event. -/
def wDbBound : DbState := ⟨[⟨"evt-1", -100, some 3⟩], []⟩

/-! ## Helper lemmas -/

theorem lookupKey_setKey_self {β : Type} (m : List (String × β)) (h : String)
    (st : β) : lookupKey (setKey m h st) h = some st := by
  induction m with
  | nil => simp [setKey, lookupKey]
  | cons kv rest ih =>
    by_cases hk : kv.1 = h
    · simp [setKey, hk, lookupKey]
    · simpa [setKey, hk, lookupKey] using ih

theorem pcdsStatusRoute_status_of_known (ctx : ServerProvingContext)
    (h : String) (st : StampPCDStatus)
    (hl : lookupKey ctx.stampStatus h = some st) :
    (pcdsStatusRoute ctx h).status = some st := by
  cases st <;> simp [pcdsStatusRoute, hl]

/-! ## Claims about the proof-job queue -/

/-- Claim C3: a prove request whose hash already has a job (in any status) gets
that status back with no state change; and two back-to-back submissions of an
identical fresh request enqueue it once, return the same hash, and the second
submission changes nothing and triggers no further `prove()` call — the one
enqueued copy is the only computation ever triggered for it. -/
theorem c3_prove_dedup (hashRequest : ProveRequest → String)
    (ctx : ServerProvingContext) (req : ProveRequest) :
    (∀ st, lookupKey ctx.stampStatus (hashRequest req) = some st →
      pcdsProveRoute hashRequest ctx req =
        (ctx, ⟨req.pcdType, hashRequest req, st⟩)) ∧
    (lookupKey ctx.stampStatus (hashRequest req) = none →
      (pcdsProveRoute hashRequest
          (pcdsProveRoute hashRequest ctx req).1 req).1 =
        (pcdsProveRoute hashRequest ctx req).1 ∧
      (pcdsProveRoute hashRequest
          (pcdsProveRoute hashRequest ctx req).1 req).2.hash =
        (pcdsProveRoute hashRequest ctx req).2.hash ∧
      (pcdsProveRoute hashRequest ctx req).1.queue = ctx.queue ++ [req] ∧
      (pcdsProveRoute hashRequest ctx req).1.proveCalls =
        ctx.proveCalls ++ (if ctx.queue = [] then [req] else [])) := by
  constructor
  · intro st hst
    simp [pcdsProveRoute, hst]
  · intro hnone
    cases hq : ctx.queue with
    | nil =>
      simp [pcdsProveRoute, hnone, hq, lookupKey_setKey_self]
    | cons q0 qrest =>
      simp [pcdsProveRoute, hnone, hq, lookupKey_setKey_self]

/-- Claim C7: polling an unknown hash answers 400 with no status and no proof,
and that response differs from the response for any hash that has a job,
whatever its status. -/
theorem c7_status_unknown_hash (ctx : ServerProvingContext) (hash : String)
    (h : lookupKey ctx.stampStatus hash = none) :
    pcdsStatusRoute ctx hash = ⟨400, none, none⟩ ∧
    ∀ h' st, lookupKey ctx.stampStatus h' = some st →
      pcdsStatusRoute ctx h' ≠ pcdsStatusRoute ctx hash := by
  have hbase : pcdsStatusRoute ctx hash = ⟨400, none, none⟩ := by
    simp [pcdsStatusRoute, h]
  refine ⟨hbase, ?_⟩
  intro h' st hl heq
  have hst : (pcdsStatusRoute ctx h').status = some st :=
    pcdsStatusRoute_status_of_known ctx h' st hl
  rw [heq, hbase] at hst
  exact Option.noConfusion hst

theorem c3_prove_dedup_witness :
    pcdsProveRoute wHashRequest wCtx1 wReq =
      (wCtx1, ⟨wReq.pcdType, wHashRequest wReq, .QUEUED⟩) ∧
    (pcdsProveRoute wHashRequest
        (pcdsProveRoute wHashRequest wCtx0 wReq).1 wReq).1 =
      (pcdsProveRoute wHashRequest wCtx0 wReq).1 ∧
    (pcdsProveRoute wHashRequest
        (pcdsProveRoute wHashRequest wCtx0 wReq).1 wReq).2.hash =
      (pcdsProveRoute wHashRequest wCtx0 wReq).2.hash ∧
    (pcdsProveRoute wHashRequest wCtx0 wReq).1.queue = wCtx0.queue ++ [wReq] ∧
    (pcdsProveRoute wHashRequest wCtx0 wReq).1.proveCalls =
      wCtx0.proveCalls ++ (if wCtx0.queue = [] then [wReq] else []) :=
  ⟨(c3_prove_dedup wHashRequest wCtx1 wReq).1 .QUEUED rfl,
   (c3_prove_dedup wHashRequest wCtx0 wReq).2 rfl⟩

theorem c7_status_unknown_hash_witness :
    pcdsStatusRoute wCtx1 "missing" = ⟨400, none, none⟩ ∧
    pcdsStatusRoute wCtx1 "X/a1" ≠ pcdsStatusRoute wCtx1 "missing" :=
  ⟨(c7_status_unknown_hash wCtx1 "missing" rfl).1,
   (c7_status_unknown_hash wCtx1 "missing" rfl).2 "X/a1" .QUEUED rfl⟩

theorem fetchStatus_insert_self (db : DbState) (u : Nat) (c : Int)
    (sid : Option String) :
    fetchTelegramVerificationStatus (insertTelegramVerification db u c sid) u c
      = true := by
  simp [fetchTelegramVerificationStatus, insertTelegramVerification]

theorem any_verified_filter_not (l : List TelegramConversation) (u : Nat)
    (c : Int) :
    (l.filter (fun r =>
        !(r.telegram_user_id == u && r.telegram_chat_id == c))).any
      (fun r =>
        r.telegram_user_id == u && r.telegram_chat_id == c && r.verified)
      = false := by
  induction l with
  | nil => rfl
  | cons hd tl ih =>
    cases hu : (hd.telegram_user_id == u) <;>
      cases hc : (hd.telegram_chat_id == c) <;>
        simp_all [List.filter_cons, List.any_cons] <;> exact ih

theorem fetchStatus_delete_self (db : DbState) (u : Nat) (c : Int) :
    fetchTelegramVerificationStatus (deleteTelegramVerification db u c) u c
      = false := by
  simpa [fetchTelegramVerificationStatus, deleteTelegramVerification,
    Bool.and_assoc] using any_verified_filter_not db.telegram_bot_conversations u c

theorem handleVerification_ok_inv (cfg : VerifyConfig) (env : BotEnv)
    (db : DbState) (s : SerializedPCD) (U : Nat)
    (h : (handleVerification cfg env db s U).1 = .ok ()) :
    ∃ pcd eventId event chat,
      verifyZKEdDSAEventTicketPCD cfg s = .ok (some pcd) ∧
      pcd.claim.watermark = some U ∧
      pcd.claim.partialTicket.eventId = some eventId ∧
      fetchTelegramEventByEventId db eventId = some event ∧
      env.getChat event.telegram_chat_id = some chat ∧
      chatIsGroup chat = true ∧
      handleVerification cfg env db s U =
        (.ok (),
         insertTelegramVerification db U event.telegram_chat_id none,
         sendInviteLinkEffects U chat) := by
  cases hv : verifyZKEdDSAEventTicketPCD cfg s with
  | error e => simp [handleVerification, hv] at h
  | ok o =>
    cases o with
    | none => simp [handleVerification, hv] at h
    | some pcd =>
      cases hw : pcd.claim.watermark with
      | none => simp [handleVerification, hv, hw] at h
      | some w =>
        by_cases hw0 : w = 0
        · simp [handleVerification, hv, hw, hw0] at h
        · by_cases hU : U = w
          · subst hU
            cases he : pcd.claim.partialTicket.eventId with
            | none => simp [handleVerification, hv, hw, hw0, he] at h
            | some eventId =>
              by_cases he0 : eventId = ""
              · simp [handleVerification, hv, hw, hw0, he, he0] at h
              · cases hf : fetchTelegramEventByEventId db eventId with
                | none =>
                  simp [handleVerification, hv, hw, hw0, he, he0, hf] at h
                | some event =>
                  cases hc : env.getChat event.telegram_chat_id with
                  | none =>
                    simp [handleVerification, hv, hw, hw0, he, he0, hf, hc] at h
                  | some chat =>
                    cases hg : chatIsGroup chat with
                    | false =>
                      simp [handleVerification, hv, hw, hw0, he, he0, hf, hc,
                        hg] at h
                    | true =>
                      refine ⟨pcd, eventId, event, chat, rfl, hw, he, hf,
                        hc, hg, ?_⟩
                      simp [handleVerification, hv, hw, hw0, he, he0, hf, hc,
                        hg]
          · have hU' : U ≠ w := hU
            simp [handleVerification, hv, hw, hw0, hU'] at h

/-! ## Claims about the Telegram admission service -/

/-- Claim C1: for every join-flow verification, `handleVerification` rejects —
throws, leaves the store untouched, sends nothing — whenever the verified
PCD's watermark differs from the Telegram user id; and whenever it proceeds,
the watermark equals the requester's Telegram user id. -/
theorem c1_join_watermark_binding (cfg : VerifyConfig) (env : BotEnv)
    (db : DbState) (s : SerializedPCD) (telegramUserId : Nat) :
    (∀ pcd w, verifyZKEdDSAEventTicketPCD cfg s = .ok (some pcd) →
      pcd.claim.watermark = some w → w ≠ telegramUserId →
      ∃ e, handleVerification cfg env db s telegramUserId = (.error e, db, [])) ∧
    ((handleVerification cfg env db s telegramUserId).1 = .ok () →
      ∃ pcd, verifyZKEdDSAEventTicketPCD cfg s = .ok (some pcd) ∧
        pcd.claim.watermark = some telegramUserId) := by
  constructor
  · intro pcd w hv hw hne
    by_cases hw0 : w = 0
    · exact ⟨"Verification PCD did not contain watermark",
        by simp [handleVerification, hv, hw, hw0]⟩
    · have hU : telegramUserId ≠ w := Ne.symm hne
      exact ⟨"Telegram User id " ++ toString telegramUserId ++
          " does not match given watermark " ++ toString w,
        by simp [handleVerification, hv, hw, hw0, hU]⟩
  · intro hok
    obtain ⟨pcd, eventId, event, chat, hv, hw, _, _, _, _, _⟩ :=
      handleVerification_ok_inv cfg env db s telegramUserId hok
    exact ⟨pcd, hv, hw⟩

theorem c1_join_watermark_binding_witness :
    (∃ e, handleVerification localCfg wEnv wDb (.ok wPcdW7) 5 =
      (.error e, wDb, [])) ∧
    (∃ pcd, verifyZKEdDSAEventTicketPCD localCfg (.ok wPcdU5) = .ok (some pcd) ∧
      pcd.claim.watermark = some 5) :=
  ⟨(c1_join_watermark_binding localCfg wEnv wDb (.ok wPcdW7) 5).1 wPcdW7 7
      rfl rfl (by decide),
   (c1_join_watermark_binding localCfg wEnv wDb (.ok wPcdU5) 5).2 rfl⟩

theorem chatJoinRequestHandler_fst (db : DbState) (chatId : Int) (userId : Nat) :
    (chatJoinRequestHandler db chatId userId).1 = db := by
  by_cases h : fetchTelegramVerificationStatus db userId chatId = true <;>
    simp [chatJoinRequestHandler, h]

theorem repeatJoin_eq (db : DbState) (chatId : Int) (userId : Nat) (n : Nat) :
    repeatJoin db chatId userId n = db := by
  induction n with
  | zero => rfl
  | succ n ih => simp [repeatJoin, ih, chatJoinRequestHandler_fst]

/-- Claim C4: for every user `U` and chat `C`: when a successful
`handleVerification` for `U` resolves — through the event-registry row of the
proof's eventId — to chat `C`, the resulting store is exactly the old store
plus the `(U, C)` verification row; a join request from `U` for `C` is then
approved; a subsequent membership-granted event for `(U, C)` removes the
verification record; and any number of later join requests from `U` for `C`
without a new verification are all left unapproved. -/
theorem c4_admission_lifecycle (cfg : VerifyConfig) (env : BotEnv)
    (db : DbState) (s : SerializedPCD) (U : Nat) (C : Int)
    (pcd : ZKEdDSAEventTicketPCD) (eventId : String) (event : TelegramEvent)
    (hok : (handleVerification cfg env db s U).1 = .ok ())
    (hv : verifyZKEdDSAEventTicketPCD cfg s = .ok (some pcd))
    (he : pcd.claim.partialTicket.eventId = some eventId)
    (hf : fetchTelegramEventByEventId db eventId = some event)
    (hC : event.telegram_chat_id = C) :
    (handleVerification cfg env db s U).2.1 =
      insertTelegramVerification db U C none ∧
    fetchTelegramVerificationStatus
      (handleVerification cfg env db s U).2.1 U C = true ∧
    (chatJoinRequestHandler
      (handleVerification cfg env db s U).2.1 C U).2.head? =
        some (.approvedJoinRequest C U) ∧
    fetchTelegramVerificationStatus
      (chatMemberHandler (handleVerification cfg env db s U).2.1 C U "member")
      U C = false ∧
    ∀ n, chatJoinRequestHandler
      (repeatJoin
        (chatMemberHandler (handleVerification cfg env db s U).2.1 C U "member")
        C U n) C U =
      (chatMemberHandler (handleVerification cfg env db s U).2.1 C U "member",
       []) := by
  obtain ⟨pcd', eventId', event', chat, hv', hw', he', hf', hc', hg', heq⟩ :=
    handleVerification_ok_inv cfg env db s U hok
  rw [hv'] at hv
  obtain rfl : pcd' = pcd := Option.some.inj (Except.ok.inj hv)
  rw [he'] at he
  obtain rfl : eventId' = eventId := Option.some.inj he
  rw [hf'] at hf
  obtain rfl : event' = event := Option.some.inj hf
  subst hC
  refine ⟨?_, ?_, ?_, ?_, ?_⟩
  · rw [heq]
  · rw [heq]
    apply fetchStatus_insert_self
  · rw [heq]
    simp [chatJoinRequestHandler, fetchStatus_insert_self]
  · rw [heq]
    simp [chatMemberHandler, fetchStatus_delete_self]
  · intro n
    rw [heq, repeatJoin_eq]
    simp [chatJoinRequestHandler, chatMemberHandler, fetchStatus_delete_self]

theorem c4_admission_lifecycle_witness :
    (handleVerification localCfg wEnv wDb (.ok wPcdU5) 5).2.1 =
      insertTelegramVerification wDb 5 (-100) none ∧
    fetchTelegramVerificationStatus
      (handleVerification localCfg wEnv wDb (.ok wPcdU5) 5).2.1 5 (-100)
      = true ∧
    (chatJoinRequestHandler
      (handleVerification localCfg wEnv wDb (.ok wPcdU5) 5).2.1
      (-100) 5).2.head? = some (.approvedJoinRequest (-100) 5) ∧
    fetchTelegramVerificationStatus
      (chatMemberHandler
        (handleVerification localCfg wEnv wDb (.ok wPcdU5) 5).2.1
        (-100) 5 "member") 5 (-100) = false ∧
    ∀ n, chatJoinRequestHandler
      (repeatJoin
        (chatMemberHandler
          (handleVerification localCfg wEnv wDb (.ok wPcdU5) 5).2.1
          (-100) 5 "member") (-100) 5 n) (-100) 5 =
      (chatMemberHandler
        (handleVerification localCfg wEnv wDb (.ok wPcdU5) 5).2.1
        (-100) 5 "member", []) :=
  c4_admission_lifecycle localCfg wEnv wDb (.ok wPcdU5) 5 (-100) wPcdU5
    "evt-1" ⟨"evt-1", -100, none⟩ rfl rfl rfl rfl rfl

/-- Claim C10: the `chat_join_request` handler never writes the verification
store; any number of repeated join requests leave the store fixed and, while
the pair is verified, each of them is approved; the `chat_member`
membership-granted event is what deletes the record. -/
theorem c10_join_request_frame (db : DbState) (chatId : Int) (userId : Nat) :
    (∀ n, repeatJoin db chatId userId n = db) ∧
    (fetchTelegramVerificationStatus db userId chatId = true →
      ∀ n, (chatJoinRequestHandler (repeatJoin db chatId userId n)
        chatId userId).2.head? = some (.approvedJoinRequest chatId userId)) ∧
    fetchTelegramVerificationStatus
      (chatMemberHandler db chatId userId "member") userId chatId = false := by
  have hrep : ∀ n, repeatJoin db chatId userId n = db := by
    intro n
    induction n with
    | zero => rfl
    | succ n ih => simp [repeatJoin, ih, chatJoinRequestHandler_fst]
  refine ⟨hrep, ?_, ?_⟩
  · intro hver n
    rw [hrep n]
    simp [chatJoinRequestHandler, hver]
  · simp [chatMemberHandler, fetchStatus_delete_self]

theorem c10_join_request_frame_witness :
    (chatJoinRequestHandler (repeatJoin wDbVerified (-100) 5 3) (-100) 5).2.head?
      = some (.approvedJoinRequest (-100) 5) :=
  (c10_join_request_frame wDbVerified (-100) 5).2.1 (by decide) 3

/-- Claim C2: `handleSendAnonymousMessage` computes the expected watermark as
`getMessageWatermark` — sha256 the message, keep the first 16 hex characters,
read them as a big integer — rejects with the watermark-mismatch error and
forwards nothing whenever the proof's watermark differs from that digest, and
when it matches (and the event's chat carries an anonymous topic) forwards the
message to that topic with no sender metadata. -/
theorem c2_anon_watermark_binding (cfg : VerifyConfig) (env : BotEnv)
    (hash : String → String) (db : DbState) (s : SerializedPCD)
    (message : String) :
    (∀ pcd w, verifyZKEdDSAEventTicketPCD cfg s = .ok (some pcd) →
      pcd.claim.watermark = some w → w ≠ getMessageWatermark hash message →
      ∃ e, handleSendAnonymousMessage cfg env hash db s message =
        (.error e, [])) ∧
    (∀ pcd eventId w event anonChatId chat,
      verifyZKEdDSAEventTicketPCD cfg s = .ok (some pcd) →
      pcd.claim.partialTicket.eventId = some eventId → eventId ≠ "" →
      pcd.claim.watermark = some w → w ≠ 0 →
      w = getMessageWatermark hash message →
      fetchTelegramEventByEventId db eventId = some event →
      event.anon_chat_id = some anonChatId →
      env.getChat event.telegram_chat_id = some chat →
      chatIsGroup chat = true →
      handleSendAnonymousMessage cfg env hash db s message =
        (.ok (), [.anonChannelMessage chat.id anonChatId message])) := by
  constructor
  · intro pcd w hv hw hne
    cases he : pcd.claim.partialTicket.eventId with
    | none =>
      exact ⟨"Anonymous message PCD did not contain eventId",
        by simp [handleSendAnonymousMessage, hv, he]⟩
    | some eid =>
      by_cases he0 : eid = ""
      · exact ⟨"Anonymous message PCD did not contain eventId",
          by simp [handleSendAnonymousMessage, hv, he, he0]⟩
      · by_cases hw0 : w = 0
        · exact ⟨"Anonymous message PCD did not contain watermark",
            by simp [handleSendAnonymousMessage, hv, he, he0, hw, hw0]⟩
        · have hne' : getMessageWatermark hash message ≠ w := Ne.symm hne
          exact ⟨"Anonymous message string " ++ message ++
              " did not match watermark. got " ++ toString w ++
              " and expected " ++ toString (getMessageWatermark hash message),
            by simp [handleSendAnonymousMessage, hv, he, he0, hw, hw0, hne']⟩
  · intro pcd eventId w event anonChatId chat hv he he0 hw hw0 hmw hf ha hc hg
    subst hmw
    simp [handleSendAnonymousMessage, hv, he, he0, hw, hw0, hf, ha, hc, hg]

theorem c2_anon_watermark_binding_witness :
    (∃ e, handleSendAnonymousMessage localCfg wEnv wHash wDbAnon
      (.ok wPcdW7) "hello" = (.error e, [])) ∧
    handleSendAnonymousMessage localCfg wEnv wHash wDbAnon
      (.ok wPcdAnon) "hello" =
        (.ok (), [.anonChannelMessage (-100) 99 "hello"]) :=
  ⟨(c2_anon_watermark_binding localCfg wEnv wHash wDbAnon (.ok wPcdW7)
      "hello").1 wPcdW7 7 rfl rfl (by decide),
   (c2_anon_watermark_binding localCfg wEnv wHash wDbAnon (.ok wPcdAnon)
      "hello").2 wPcdAnon "evt-1" 255 ⟨"evt-1", -100, some 99⟩ 99
      ⟨-100, .supergroup⟩ rfl rfl (by decide) rfl (by decide) rfl rfl rfl rfl rfl⟩

theorem handleVerification_frame (cfg : VerifyConfig) (env : BotEnv)
    (db : DbState) (s : SerializedPCD) (U : Nat) :
    (handleVerification cfg env db s U).1 = .ok () ∨
    ((handleVerification cfg env db s U).2.1 = db ∧
     (handleVerification cfg env db s U).2.2 = []) := by
  unfold handleVerification
  repeat' split
  all_goals simp

/-- Claim C5 (counterexample): in a staging deployment, a proof failing only
the structural check and a proof failing only the signer check produce the
very same outcome of `verifyZKEdDSAEventTicketPCD` — the checks are folded
into one boolean, so no typed error distinguishes InvalidProof from
SignerMismatch (or EventNotAllowed). -/
theorem c5_counterexample :
    pcdInvalidProof.validProof = false ∧
    signerMatches stagingCfg pcdInvalidProof = true ∧
    eventIdMatches stagingCfg pcdInvalidProof = true ∧
    pcdWrongSigner.validProof = true ∧
    signerMatches stagingCfg pcdWrongSigner = false ∧
    eventIdMatches stagingCfg pcdWrongSigner = true ∧
    verifyZKEdDSAEventTicketPCD stagingCfg (.ok pcdInvalidProof) =
      verifyZKEdDSAEventTicketPCD stagingCfg (.ok pcdWrongSigner) :=
  ⟨rfl, rfl, rfl, rfl, rfl, rfl, rfl⟩

/-- Claim C5 (amended): deserialization failure short-circuits with its own
typed error; for a deserialized PCD the verifier returns the single
undifferentiated `none` exactly when the input survives the eventId-presence
throw but the conjunction of the structural check, the event match and the
signer match fails — whichever of the three failed; and a failed
`handleVerification` persists nothing and sends nothing. -/
theorem c5_error_collapse (cfg : VerifyConfig) (env : BotEnv) (db : DbState)
    (s : SerializedPCD) (U : Nat) (pcd : ZKEdDSAEventTicketPCD) :
    verifyZKEdDSAEventTicketPCD cfg .malformed = .error "Deserialization error" ∧
    (verifyZKEdDSAEventTicketPCD cfg (.ok pcd) = .ok none ↔
      (cfg.isLocalServer = true ∨
        ∃ e, pcd.claim.partialTicket.eventId = some e ∧ e ≠ "") ∧
      (pcd.validProof && eventIdMatches cfg pcd && signerMatches cfg pcd)
        = false) ∧
    ((handleVerification cfg env db s U).1 = .ok () ∨
      ((handleVerification cfg env db s U).2.1 = db ∧
       (handleVerification cfg env db s U).2.2 = [])) := by
  refine ⟨rfl, ?_, handleVerification_frame cfg env db s U⟩
  cases hl : cfg.isLocalServer with
  | true =>
    cases hv : pcd.validProof <;>
      simp [verifyZKEdDSAEventTicketPCD, eventIdMatches, signerMatches, hl, hv]
  | false =>
    rcases he : pcd.claim.partialTicket.eventId with _ | e
    · cases hs : cfg.isStaging <;>
        simp [verifyZKEdDSAEventTicketPCD, eventIdIsAllowed, eventIdMatches,
          hl, hs, he]
    · by_cases he0 : e = ""
      · cases hs : cfg.isStaging <;>
          simp [verifyZKEdDSAEventTicketPCD, eventIdIsAllowed, eventIdMatches,
            hl, hs, he, he0]
      · cases hs : cfg.isStaging <;> cases hv : pcd.validProof <;>
          cases hce : (ALLOWED_EVENT_IDS.map (fun a => a.eventId)).contains e <;>
          simp [verifyZKEdDSAEventTicketPCD, eventIdIsAllowed, eventIdMatches,
            signerMatches, hl, hs, he, he0, hv, hce]

/-- Claim C6 (counterexample): on a local server, a structurally valid,
correctly signed proof for event "evt-999" — an event neither in the
allow-list nor registered in the (empty) event-chat registry — passes
`verifyZKEdDSAEventTicketPCD` instead of being rejected with an
event-not-allowed error. -/
theorem c6_counterexample :
    eventIdIsAllowed (some "evt-999") = .ok false ∧
    fetchTelegramEventByEventId emptyDb "evt-999" = none ∧
    verifyZKEdDSAEventTicketPCD localCfg (.ok pcdEvt999) =
      .ok (some pcdEvt999) :=
  ⟨rfl, rfl, rfl⟩

/-- Claim C6 (amended): in non-local deployments the verifier never accepts a
proof whose eventId is outside the hardcoded allow-list — a missing or empty
eventId throws, any other disallowed eventId yields the undifferentiated
`none` verdict (the event-chat registry is never consulted by the verifier);
on a local server the event check is skipped. -/
theorem c6_event_allowlist_nonlocal (cfg : VerifyConfig)
    (pcd : ZKEdDSAEventTicketPCD) (hmode : cfg.isLocalServer = false)
    (hid : ∀ e, pcd.claim.partialTicket.eventId = some e →
      (ALLOWED_EVENT_IDS.map (fun a => a.eventId)).contains e = false) :
    verifyZKEdDSAEventTicketPCD cfg (.ok pcd) = .ok none ∨
    ∃ m, verifyZKEdDSAEventTicketPCD cfg (.ok pcd) = .error m := by
  rcases he : pcd.claim.partialTicket.eventId with _ | e
  · right
    refine ⟨"No Event Id found for verification", ?_⟩
    cases hs : cfg.isStaging <;>
      simp [verifyZKEdDSAEventTicketPCD, eventIdIsAllowed, hmode, hs, he]
  · by_cases he0 : e = ""
    · right
      refine ⟨"No Event Id found for verification", ?_⟩
      cases hs : cfg.isStaging <;>
        simp [verifyZKEdDSAEventTicketPCD, eventIdIsAllowed, hmode, hs, he, he0]
    · left
      have hc := hid e he
      have hcm : ∀ x ∈ ALLOWED_EVENT_IDS, ¬ x.eventId = e := by
        simpa using hc
      cases hs : cfg.isStaging <;>
        simp [verifyZKEdDSAEventTicketPCD, eventIdIsAllowed, hmode, hs, he,
          he0] <;>
        exact fun _ x hx hxe => absurd hxe (hcm x hx)

theorem c6_event_allowlist_nonlocal_witness :
    verifyZKEdDSAEventTicketPCD stagingCfg (.ok pcdEvt999) = .ok none ∨
    ∃ m, verifyZKEdDSAEventTicketPCD stagingCfg (.ok pcdEvt999) = .error m :=
  c6_event_allowlist_nonlocal stagingCfg pcdEvt999 rfl
    (fun e he => by
      injection he with h
      subst h
      rfl)

/-- Claim C8 (counterexample): two successful back-to-back runs of
`handleVerification` for the same user and chat leave two verification rows,
not the single row a keyed idempotent upsert would leave. -/
theorem c8_counterexample :
    (handleVerification localCfg wEnv wDb (.ok wPcdU5) 5).1 = .ok () ∧
    (handleVerification localCfg wEnv
      (handleVerification localCfg wEnv wDb (.ok wPcdU5) 5).2.1
      (.ok wPcdU5) 5).1 = .ok () ∧
    ((handleVerification localCfg wEnv wDb
      (.ok wPcdU5) 5).2.1).telegram_bot_conversations.length = 1 ∧
    ((handleVerification localCfg wEnv
      (handleVerification localCfg wEnv wDb (.ok wPcdU5) 5).2.1
      (.ok wPcdU5) 5).2.1).telegram_bot_conversations.length = 2 :=
  ⟨rfl, rfl, rfl, rfl⟩

/-- Claim C8 (amended): the verification-record write of `handleVerification`
is a plain insert, not an upsert: each run appends one more row for the pair
(so a second run does not leave the store as after one run), while the
verification-status lookup still reports the pair verified. -/
theorem c8_insert_not_idempotent (db : DbState) (u : Nat) (c : Int)
    (sid : Option String) :
    (insertTelegramVerification db u c sid).telegram_bot_conversations.length
      = db.telegram_bot_conversations.length + 1 ∧
    insertTelegramVerification (insertTelegramVerification db u c sid) u c sid
      ≠ insertTelegramVerification db u c sid ∧
    fetchTelegramVerificationStatus (insertTelegramVerification db u c sid) u c
      = true := by
  refine ⟨by simp [insertTelegramVerification], ?_,
    fetchStatus_insert_self db u c sid⟩
  intro h
  have hlen := congrArg (fun d => d.telegram_bot_conversations.length) h
  simp [insertTelegramVerification] at hlen

/-- Claim C9, evaluated at the failing input: with an anonymous channel
already bound, `/incognito` answers already-linked and leaves the store — and
the first binding — untouched; but with no binding and a linked event, the
handler replies success while the store is completely unchanged, because
`insertTelegramEvent` has no topic parameter and the thread id (7) is
dropped: no `anon_chat_id` is ever recorded. -/
theorem c9_incognito_drops_topic :
    incognitoHandler wDbBound wIncognitoCtx =
      (wDbBound,
       [.reply "This group has already linked an anonymous channel."]) ∧
    (incognitoHandler wDb wIncognitoCtx).2 =
      [.reply "Successfully linked anonymous channel. DM me with /anonsend to anonymously send a message."] ∧
    (incognitoHandler wDb wIncognitoCtx).1 = wDb :=
  ⟨rfl, rfl, rfl⟩

theorem c5_error_collapse_witness :
    verifyZKEdDSAEventTicketPCD stagingCfg .malformed =
      .error "Deserialization error" ∧
    (verifyZKEdDSAEventTicketPCD stagingCfg (.ok pcdInvalidProof) = .ok none ↔
      (stagingCfg.isLocalServer = true ∨
        ∃ e, pcdInvalidProof.claim.partialTicket.eventId = some e ∧ e ≠ "") ∧
      (pcdInvalidProof.validProof && eventIdMatches stagingCfg pcdInvalidProof
        && signerMatches stagingCfg pcdInvalidProof) = false) ∧
    ((handleVerification stagingCfg wEnv emptyDb .malformed 5).1 = .ok () ∨
      ((handleVerification stagingCfg wEnv emptyDb .malformed 5).2.1 = emptyDb ∧
       (handleVerification stagingCfg wEnv emptyDb .malformed 5).2.2 = [])) :=
  c5_error_collapse stagingCfg wEnv emptyDb .malformed 5 pcdInvalidProof

theorem c8_insert_not_idempotent_witness :
    (insertTelegramVerification emptyDb 5 (-100)
      none).telegram_bot_conversations.length =
      emptyDb.telegram_bot_conversations.length + 1 ∧
    insertTelegramVerification
      (insertTelegramVerification emptyDb 5 (-100) none) 5 (-100) none
      ≠ insertTelegramVerification emptyDb 5 (-100) none ∧
    fetchTelegramVerificationStatus
      (insertTelegramVerification emptyDb 5 (-100) none) 5 (-100) = true :=
  c8_insert_not_idempotent emptyDb 5 (-100) none
